import Mathlib

/-!
Verification of the size-mapping module of the VTryon e-commerce service
(`VTryon_Updated/mapping.py` and the `/get-supported-sizes` endpoint of
`VTryon_Updated/app.py`).

Python strings are modelled as lists of code points (`List Nat`); the
ASCII-relevant parts of `str.lower`, `str.upper`, `str.strip`,
`str.isalpha` and `str.replace("-", "")` are given explicitly.  Python
dictionaries become association lists looked up with `lookupStr`; a
`KeyError` caught by the code corresponds to a `none` result of the
lookup chain.
-/

namespace VTryon

/-- A Python string, as its list of code points. -/
abbrev PyStr := List Nat

/-- Embed a Lean string literal as a `PyStr`. -/
def pys (s : String) : PyStr := s.data.map Char.toNat

/-- `str.lower` on one code point (ASCII range, as used by the data). -/
def lowerC (c : Nat) : Nat := if 65 ≤ c ∧ c ≤ 90 then c + 32 else c

/-- `str.upper` on one code point (ASCII range, as used by the data). -/
def upperC (c : Nat) : Nat := if 97 ≤ c ∧ c ≤ 122 then c - 32 else c

/-- `str.isalpha` on one code point (ASCII letters). -/
def isAlphaC (c : Nat) : Bool := decide ((65 ≤ c ∧ c ≤ 90) ∨ (97 ≤ c ∧ c ≤ 122))

/-- Python whitespace (the characters `str.strip` removes). -/
def isSpaceC (c : Nat) : Bool :=
  decide (c = 32 ∨ c = 9 ∨ c = 10 ∨ c = 13 ∨ c = 11 ∨ c = 12)

/-- `s.lower()`. -/
def pyLower (s : PyStr) : PyStr := s.map lowerC

/-- `s.upper()`. -/
def pyUpper (s : PyStr) : PyStr := s.map upperC

/-- `s.strip()`: drop surrounding whitespace. -/
def pyStrip (s : PyStr) : PyStr :=
  ((s.dropWhile isSpaceC).reverse.dropWhile isSpaceC).reverse

/-- `s.isalpha()`: nonempty and every character alphabetic. -/
def pyIsAlpha (s : PyStr) : Bool := !s.isEmpty && s.all isAlphaC

/-- `s.replace("-", "")`: remove every hyphen (code point 45). -/
def removeDashes (s : PyStr) : PyStr := s.filter (fun c => decide (c ≠ 45))

/-- Innermost dictionaries: target brand to size. -/
abbrev TargetMap := List (PyStr × PyStr)

/-- Size to target map. -/
abbrev SizeMap := List (PyStr × TargetMap)

/-- Source brand to size map. -/
abbrev BrandMap := List (PyStr × SizeMap)

/-- Gender to brand map. -/
abbrev GenderMap := List (PyStr × BrandMap)

/-- Category to gender map: the type of `CATEGORY_SIZE_MAP`. -/
abbrev CategoryMap := List (PyStr × GenderMap)

/-- Python dictionary lookup on an association list (`d[k]`), `none`
playing the role of `KeyError`. -/
def lookupStr {α : Type} : List (PyStr × α) → PyStr → Option α
  | [], _ => none
  | (k, v) :: rest, q => if q = k then some v else lookupStr rest q

/-- The `"tshirts" -> "male"` branch of `CATEGORY_SIZE_MAP`. -/
def tshirts_male : BrandMap :=
  [ (pys "nike",
      [ (pys "S", [(pys "adidas", pys "44"), (pys "zara", pys "S")]),
        (pys "M", [(pys "adidas", pys "46"), (pys "zara", pys "M")]),
        (pys "L", [(pys "adidas", pys "48"), (pys "zara", pys "L")]) ]),
    (pys "adidas",
      [ (pys "44", [(pys "nike", pys "S"), (pys "zara", pys "S")]),
        (pys "46", [(pys "nike", pys "M"), (pys "zara", pys "M")]),
        (pys "48", [(pys "nike", pys "L"), (pys "zara", pys "L")]) ]),
    (pys "zara",
      [ (pys "S", [(pys "nike", pys "S"), (pys "adidas", pys "44")]),
        (pys "M", [(pys "nike", pys "M"), (pys "adidas", pys "46")]),
        (pys "L", [(pys "nike", pys "L"), (pys "adidas", pys "48")]) ]) ]

/-- The `"tshirts" -> "female"` branch of `CATEGORY_SIZE_MAP`. -/
def tshirts_female : BrandMap :=
  [ (pys "nike",
      [ (pys "S", [(pys "adidas", pys "36"), (pys "zara", pys "S")]),
        (pys "M", [(pys "adidas", pys "38"), (pys "zara", pys "M")]),
        (pys "L", [(pys "adidas", pys "40"), (pys "zara", pys "L")]) ]),
    (pys "adidas",
      [ (pys "36", [(pys "nike", pys "S"), (pys "zara", pys "S")]),
        (pys "38", [(pys "nike", pys "M"), (pys "zara", pys "M")]),
        (pys "40", [(pys "nike", pys "L"), (pys "zara", pys "L")]) ]),
    (pys "zara",
      [ (pys "S", [(pys "nike", pys "S"), (pys "adidas", pys "36")]),
        (pys "M", [(pys "nike", pys "M"), (pys "adidas", pys "38")]),
        (pys "L", [(pys "nike", pys "L"), (pys "adidas", pys "40")]) ]) ]

/-- The `"pants" -> "male"` branch of `CATEGORY_SIZE_MAP`. -/
def pants_male : BrandMap :=
  [ (pys "nike",
      [ (pys "32", [(pys "adidas", pys "32"), (pys "zara", pys "32")]),
        (pys "34", [(pys "adidas", pys "34"), (pys "zara", pys "34")]),
        (pys "36", [(pys "adidas", pys "36"), (pys "zara", pys "36")]) ]),
    (pys "adidas",
      [ (pys "32", [(pys "nike", pys "32"), (pys "zara", pys "32")]),
        (pys "34", [(pys "nike", pys "34"), (pys "zara", pys "34")]),
        (pys "36", [(pys "nike", pys "36"), (pys "zara", pys "36")]) ]),
    (pys "zara",
      [ (pys "32", [(pys "nike", pys "32"), (pys "adidas", pys "32")]),
        (pys "34", [(pys "nike", pys "34"), (pys "adidas", pys "34")]),
        (pys "36", [(pys "nike", pys "36"), (pys "adidas", pys "36")]) ]) ]

/-- The `"pants" -> "female"` branch of `CATEGORY_SIZE_MAP`. -/
def pants_female : BrandMap :=
  [ (pys "nike",
      [ (pys "26", [(pys "adidas", pys "34"), (pys "zara", pys "34")]),
        (pys "28", [(pys "adidas", pys "36"), (pys "zara", pys "36")]),
        (pys "30", [(pys "adidas", pys "38"), (pys "zara", pys "38")]) ]),
    (pys "adidas",
      [ (pys "34", [(pys "nike", pys "26"), (pys "zara", pys "34")]),
        (pys "36", [(pys "nike", pys "28"), (pys "zara", pys "36")]),
        (pys "38", [(pys "nike", pys "30"), (pys "zara", pys "38")]) ]),
    (pys "zara",
      [ (pys "34", [(pys "nike", pys "26"), (pys "adidas", pys "34")]),
        (pys "36", [(pys "nike", pys "28"), (pys "adidas", pys "36")]),
        (pys "38", [(pys "nike", pys "30"), (pys "adidas", pys "38")]) ]) ]

/-- The `"jackets" -> "male"` branch of `CATEGORY_SIZE_MAP`. -/
def jackets_male : BrandMap :=
  [ (pys "nike",
      [ (pys "M", [(pys "adidas", pys "46"), (pys "zara", pys "M")]),
        (pys "L", [(pys "adidas", pys "48"), (pys "zara", pys "L")]) ]),
    (pys "adidas",
      [ (pys "46", [(pys "nike", pys "M"), (pys "zara", pys "M")]),
        (pys "48", [(pys "nike", pys "L"), (pys "zara", pys "L")]) ]),
    (pys "zara",
      [ (pys "M", [(pys "nike", pys "M"), (pys "adidas", pys "46")]),
        (pys "L", [(pys "nike", pys "L"), (pys "adidas", pys "48")]) ]) ]

/-- The `"jackets" -> "female"` branch of `CATEGORY_SIZE_MAP`. -/
def jackets_female : BrandMap :=
  [ (pys "nike",
      [ (pys "S", [(pys "adidas", pys "36"), (pys "zara", pys "S")]),
        (pys "M", [(pys "adidas", pys "38"), (pys "zara", pys "M")]),
        (pys "L", [(pys "adidas", pys "40"), (pys "zara", pys "L")]) ]),
    (pys "adidas",
      [ (pys "36", [(pys "nike", pys "S"), (pys "zara", pys "S")]),
        (pys "38", [(pys "nike", pys "M"), (pys "zara", pys "M")]),
        (pys "40", [(pys "nike", pys "L"), (pys "zara", pys "L")]) ]),
    (pys "zara",
      [ (pys "S", [(pys "nike", pys "S"), (pys "adidas", pys "36")]),
        (pys "M", [(pys "nike", pys "M"), (pys "adidas", pys "38")]),
        (pys "L", [(pys "nike", pys "L"), (pys "adidas", pys "40")]) ]) ]

/-- The `"shoes" -> "male" -> "nike"` size dictionary, named so that the
exact-match behaviour on this branch can be stated directly. -/
def shoes_male_nike : SizeMap :=
  [ (pys "8", [(pys "adidas", pys "42"), (pys "zara", pys "42")]),
    (pys "9", [(pys "adidas", pys "43"), (pys "zara", pys "43")]),
    (pys "10", [(pys "adidas", pys "44"), (pys "zara", pys "44")]) ]

/-- The `"shoes" -> "male"` branch of `CATEGORY_SIZE_MAP`. -/
def shoes_male : BrandMap :=
  [ (pys "nike", shoes_male_nike),
    (pys "adidas",
      [ (pys "42", [(pys "nike", pys "8"), (pys "zara", pys "42")]),
        (pys "43", [(pys "nike", pys "9"), (pys "zara", pys "43")]),
        (pys "44", [(pys "nike", pys "10"), (pys "zara", pys "44")]) ]),
    (pys "zara",
      [ (pys "42", [(pys "nike", pys "8"), (pys "adidas", pys "42")]),
        (pys "43", [(pys "nike", pys "9"), (pys "adidas", pys "43")]),
        (pys "44", [(pys "nike", pys "10"), (pys "adidas", pys "44")]) ]) ]

/-- The `"shoes" -> "female"` branch of `CATEGORY_SIZE_MAP`. -/
def shoes_female : BrandMap :=
  [ (pys "nike",
      [ (pys "6", [(pys "adidas", pys "38"), (pys "zara", pys "38")]),
        (pys "7", [(pys "adidas", pys "39"), (pys "zara", pys "39")]),
        (pys "8", [(pys "adidas", pys "40"), (pys "zara", pys "40")]) ]),
    (pys "adidas",
      [ (pys "38", [(pys "nike", pys "6"), (pys "zara", pys "38")]),
        (pys "39", [(pys "nike", pys "7"), (pys "zara", pys "39")]),
        (pys "40", [(pys "nike", pys "8"), (pys "zara", pys "40")]) ]),
    (pys "zara",
      [ (pys "38", [(pys "nike", pys "6"), (pys "adidas", pys "38")]),
        (pys "39", [(pys "nike", pys "7"), (pys "adidas", pys "39")]),
        (pys "40", [(pys "nike", pys "8"), (pys "adidas", pys "40")]) ]) ]

/-- `CATEGORY_SIZE_MAP` from `mapping.py` (lines 46-204). -/
def CATEGORY_SIZE_MAP : CategoryMap :=
  [ (pys "tshirts", [(pys "male", tshirts_male), (pys "female", tshirts_female)]),
    (pys "pants",   [(pys "male", pants_male),   (pys "female", pants_female)]),
    (pys "jackets", [(pys "male", jackets_male), (pys "female", jackets_female)]),
    (pys "shoes",   [(pys "male", shoes_male),   (pys "female", shoes_female)]) ]

/-- `category.lower().replace("-", "").strip()`. -/
def normCat (c : PyStr) : PyStr := pyStrip (removeDashes (pyLower c))

/-- `gender.lower().strip()`. -/
def normGen (g : PyStr) : PyStr := pyStrip (pyLower g)

/-- `brand.lower().strip()`. -/
def normBrand (b : PyStr) : PyStr := pyStrip (pyLower b)

/-- `str(from_size).strip()`, uppercased when purely alphabetic. -/
def normSize (s : PyStr) : PyStr :=
  let t := pyStrip s
  if pyIsAlpha t then pyUpper t else t

/-- The raw five-level dictionary lookup
`m[cat][gen][from_brand][size][to_brand]` in a category map `m`;
`none` is the `KeyError` case. -/
def rawLookupIn (m : CategoryMap) (c g fb fs tb : PyStr) : Option PyStr :=
  (lookupStr m c).bind fun gm =>
    (lookupStr gm g).bind fun bm =>
      (lookupStr bm fb).bind fun sm =>
        (lookupStr sm fs).bind fun tm =>
          lookupStr tm tb

/-- `get_mapped_size_by_category` (`mapping.py` lines 232-260): normalize
each argument, then look up the five-level path; the caught `KeyError`
becomes the `none` result. -/
def get_mapped_size_by_category (category gender from_brand from_size to_brand : PyStr) :
    Option PyStr :=
  rawLookupIn CATEGORY_SIZE_MAP (normCat category) (normGen gender)
    (normBrand from_brand) (normSize from_size) (normBrand to_brand)

/-- A successful dictionary lookup finds a member of the list. -/
theorem lookupStr_mem {α : Type} {l : List (PyStr × α)} {q : PyStr} {v : α}
    (h : lookupStr l q = some v) : (q, v) ∈ l := by
  induction l with
  | nil => simp [lookupStr] at h
  | cons p rest ih =>
    obtain ⟨k, w⟩ := p
    by_cases hq : q = k
    · subst hq
      simp [lookupStr] at h
      simp [h]
    · simp [lookupStr, hq] at h
      exact List.mem_cons_of_mem _ (ih h)

/-- A key matching no entry looks up to `none`. -/
theorem lookupStr_eq_none {α : Type} {l : List (PyStr × α)} {q : PyStr}
    (h : ∀ p ∈ l, p.1 ≠ q) : lookupStr l q = none := by
  induction l with
  | nil => rfl
  | cons p rest ih =>
    obtain ⟨k, w⟩ := p
    have hk : k ≠ q := h (k, w) (List.mem_cons_self _ _)
    rw [lookupStr, if_neg (fun hq : q = k => hk hq.symm)]
    exact ih fun p hp => h p (List.mem_cons_of_mem _ hp)

/-- Every key (and every stored value) occurring anywhere in a category
map is a fixed point of the normalization applied at its level. -/
def catKeysFixed (m : CategoryMap) : Bool :=
  m.all fun p => decide (normCat p.1 = p.1) &&
    p.2.all fun q => decide (normGen q.1 = q.1) &&
      q.2.all fun r => decide (normBrand r.1 = r.1) &&
        r.2.all fun t => decide (normSize t.1 = t.1) &&
          t.2.all fun u => decide (normBrand u.1 = u.1) && decide (normSize u.2 = u.2)

theorem category_size_map_keysFixed : catKeysFixed CATEGORY_SIZE_MAP = true := by decide

/-- Along any successful raw lookup path, every input string is a fixed
point of its level's normalization, and so is the resulting value. -/
theorem path_fixed {m : CategoryMap} {c g fb fs tb v : PyStr}
    (hfix : catKeysFixed m = true) (h : rawLookupIn m c g fb fs tb = some v) :
    normCat c = c ∧ normGen g = g ∧ normBrand fb = fb ∧ normSize fs = fs ∧
      normBrand tb = tb ∧ normSize v = v := by
  rw [rawLookupIn] at h
  rw [Option.bind_eq_some] at h
  obtain ⟨gm, hc, h⟩ := h
  rw [Option.bind_eq_some] at h
  obtain ⟨bm, hg, h⟩ := h
  rw [Option.bind_eq_some] at h
  obtain ⟨sm, hb, h⟩ := h
  rw [Option.bind_eq_some] at h
  obtain ⟨tm, hs, ht⟩ := h
  rw [catKeysFixed, List.all_eq_true] at hfix
  have h1 := hfix _ (lookupStr_mem hc)
  rw [Bool.and_eq_true, decide_eq_true_iff, List.all_eq_true] at h1
  obtain ⟨hcfix, h1⟩ := h1
  have h2 := h1 _ (lookupStr_mem hg)
  rw [Bool.and_eq_true, decide_eq_true_iff, List.all_eq_true] at h2
  obtain ⟨hgfix, h2⟩ := h2
  have h3 := h2 _ (lookupStr_mem hb)
  rw [Bool.and_eq_true, decide_eq_true_iff, List.all_eq_true] at h3
  obtain ⟨hbfix, h3⟩ := h3
  have h4 := h3 _ (lookupStr_mem hs)
  rw [Bool.and_eq_true, decide_eq_true_iff, List.all_eq_true] at h4
  obtain ⟨hsfix, h4⟩ := h4
  have h5 := h4 _ (lookupStr_mem ht)
  rw [Bool.and_eq_true, decide_eq_true_iff, decide_eq_true_iff] at h5
  exact ⟨hcfix, hgfix, hbfix, hsfix, h5.1, h5.2⟩

/-- The fixed category enumeration of the table. -/
def CATS : List PyStr := [pys "tshirts", pys "pants", pys "jackets", pys "shoes"]

/-- The fixed gender enumeration of the table. -/
def GENDERS : List PyStr := [pys "male", pys "female"]

/-- The fixed brand enumeration of the table. -/
def BRANDS : List PyStr := [pys "nike", pys "adidas", pys "zara"]

/-- Every key of a category map lies in the fixed enumerations. -/
def catDomains (m : CategoryMap) : Bool :=
  m.all fun p => decide (p.1 ∈ CATS) &&
    p.2.all fun q => decide (q.1 ∈ GENDERS) &&
      q.2.all fun r => decide (r.1 ∈ BRANDS) &&
        r.2.all fun t => t.2.all fun u => decide (u.1 ∈ BRANDS)

theorem category_size_map_domains : catDomains CATEGORY_SIZE_MAP = true := by decide

/-- A category outside the enumeration makes the raw lookup fail. -/
theorem raw_none_cat {m : CategoryMap} (hdom : catDomains m = true) {c : PyStr}
    (hc : c ∉ CATS) (g fb fs tb : PyStr) : rawLookupIn m c g fb fs tb = none := by
  rw [catDomains, List.all_eq_true] at hdom
  have hnone : lookupStr m c = none := lookupStr_eq_none fun p hp => by
    have hd := hdom p hp
    rw [Bool.and_eq_true, decide_eq_true_iff] at hd
    exact fun he => hc (he ▸ hd.1)
  rw [rawLookupIn, hnone, Option.none_bind]

/-- A gender outside the enumeration makes the raw lookup fail. -/
theorem raw_none_gen {m : CategoryMap} (hdom : catDomains m = true) {g : PyStr}
    (hg : g ∉ GENDERS) (c fb fs tb : PyStr) : rawLookupIn m c g fb fs tb = none := by
  rw [rawLookupIn]
  cases hc : lookupStr m c with
  | none => rfl
  | some gm =>
    rw [Option.some_bind]
    rw [catDomains, List.all_eq_true] at hdom
    have h1 := hdom _ (lookupStr_mem hc)
    rw [Bool.and_eq_true, List.all_eq_true] at h1
    have hnone : lookupStr gm g = none := lookupStr_eq_none fun q hq => by
      have hd := h1.2 q hq
      rw [Bool.and_eq_true, decide_eq_true_iff] at hd
      exact fun he => hg (he ▸ hd.1)
    rw [hnone, Option.none_bind]

/-- A source brand outside the enumeration makes the raw lookup fail. -/
theorem raw_none_from_brand {m : CategoryMap} (hdom : catDomains m = true) {fb : PyStr}
    (hb : fb ∉ BRANDS) (c g fs tb : PyStr) : rawLookupIn m c g fb fs tb = none := by
  rw [rawLookupIn]
  cases hc : lookupStr m c with
  | none => rfl
  | some gm =>
    rw [Option.some_bind]
    cases hg : lookupStr gm g with
    | none => rfl
    | some bm =>
      rw [Option.some_bind]
      rw [catDomains, List.all_eq_true] at hdom
      have h1 := hdom _ (lookupStr_mem hc)
      rw [Bool.and_eq_true, List.all_eq_true] at h1
      have h2 := h1.2 _ (lookupStr_mem hg)
      rw [Bool.and_eq_true, List.all_eq_true] at h2
      have hnone : lookupStr bm fb = none := lookupStr_eq_none fun r hr => by
        have hd := h2.2 r hr
        rw [Bool.and_eq_true, decide_eq_true_iff] at hd
        exact fun he => hb (he ▸ hd.1)
      rw [hnone, Option.none_bind]

/-- A target brand outside the enumeration makes the raw lookup fail. -/
theorem raw_none_to_brand {m : CategoryMap} (hdom : catDomains m = true) {tb : PyStr}
    (ht : tb ∉ BRANDS) (c g fb fs : PyStr) : rawLookupIn m c g fb fs tb = none := by
  rw [rawLookupIn]
  cases hc : lookupStr m c with
  | none => rfl
  | some gm =>
    rw [Option.some_bind]
    cases hg : lookupStr gm g with
    | none => rfl
    | some bm =>
      rw [Option.some_bind]
      cases hb : lookupStr bm fb with
      | none => rfl
      | some sm =>
        rw [Option.some_bind]
        cases hs : lookupStr sm fs with
        | none => rfl
        | some tm =>
          rw [Option.some_bind]
          rw [catDomains, List.all_eq_true] at hdom
          have h1 := hdom _ (lookupStr_mem hc)
          rw [Bool.and_eq_true, List.all_eq_true] at h1
          have h2 := h1.2 _ (lookupStr_mem hg)
          rw [Bool.and_eq_true, List.all_eq_true] at h2
          have h3 := h2.2 _ (lookupStr_mem hb)
          rw [Bool.and_eq_true, List.all_eq_true] at h3
          have h4 := h3.2 _ (lookupStr_mem hs)
          rw [List.all_eq_true] at h4
          exact lookupStr_eq_none fun u hu => by
            have hd := h4 u hu
            rw [decide_eq_true_iff] at hd
            exact fun he => ht (he ▸ hd)

/-- Claim C1: whenever the five-level key path is present in
`CATEGORY_SIZE_MAP`, `get_mapped_size_by_category` returns exactly the
stored value (normalization does not disturb exact stored keys). -/
theorem claim1_exact_path_returns_stored (c g fb fs tb v : PyStr)
    (h : rawLookupIn CATEGORY_SIZE_MAP c g fb fs tb = some v) :
    get_mapped_size_by_category c g fb fs tb = some v := by
  obtain ⟨h1, h2, h3, h4, h5, _⟩ := path_fixed category_size_map_keysFixed h
  rw [get_mapped_size_by_category, h1, h2, h3, h4, h5]
  exact h

/-- Witness for C1: the stored path tshirts/male/nike/S/adidas holds
"44", and the resolver returns exactly it. -/
theorem claim1_exact_path_returns_stored_witness :
    rawLookupIn CATEGORY_SIZE_MAP (pys "tshirts") (pys "male") (pys "nike")
      (pys "S") (pys "adidas") = some (pys "44") ∧
    get_mapped_size_by_category (pys "tshirts") (pys "male") (pys "nike")
      (pys "S") (pys "adidas") = some (pys "44") :=
  ⟨by decide, claim1_exact_path_returns_stored _ _ _ _ _ _ (by decide)⟩

/-- Claim C2: if any level of the normalized key path is absent the
resolver returns the explicit no-result value `none` (the `KeyError` is
caught, never propagated), and any category, gender or brand token whose
normalization falls outside the fixed enumerations yields `none`. -/
theorem claim2_missing_level_returns_none (c g fb fs tb : PyStr) :
    (rawLookupIn CATEGORY_SIZE_MAP (normCat c) (normGen g) (normBrand fb)
        (normSize fs) (normBrand tb) = none →
      get_mapped_size_by_category c g fb fs tb = none) ∧
    (normCat c ∉ CATS → get_mapped_size_by_category c g fb fs tb = none) ∧
    (normGen g ∉ GENDERS → get_mapped_size_by_category c g fb fs tb = none) ∧
    (normBrand fb ∉ BRANDS → get_mapped_size_by_category c g fb fs tb = none) ∧
    (normBrand tb ∉ BRANDS → get_mapped_size_by_category c g fb fs tb = none) :=
  ⟨fun h => h,
   fun h => raw_none_cat category_size_map_domains h _ _ _ _,
   fun h => raw_none_gen category_size_map_domains h _ _ _ _,
   fun h => raw_none_from_brand category_size_map_domains h _ _ _ _,
   fun h => raw_none_to_brand category_size_map_domains h _ _ _ _⟩

/-- Witness for C2: the unknown category "hats" is outside the
enumeration and resolves to `none`. -/
theorem claim2_missing_level_returns_none_witness :
    normCat (pys "hats") ∉ CATS ∧
    get_mapped_size_by_category (pys "hats") (pys "male") (pys "nike")
      (pys "S") (pys "adidas") = none :=
  ⟨by decide,
   (claim2_missing_level_returns_none (pys "hats") (pys "male") (pys "nike")
      (pys "S") (pys "adidas")).2.1 (by decide)⟩

theorem isAlphaC_lowerC (c : Nat) : isAlphaC (lowerC c) = isAlphaC c := by
  rw [lowerC]
  split
  · simp only [isAlphaC, decide_eq_decide]
    omega
  · rfl

theorem isAlphaC_upperC (c : Nat) : isAlphaC (upperC c) = isAlphaC c := by
  rw [upperC]
  split
  · simp only [isAlphaC, decide_eq_decide]
    omega
  · rfl

theorem upperC_lowerC (c : Nat) : upperC (lowerC c) = upperC c := by
  simp only [lowerC, upperC]
  split_ifs <;> omega

theorem upperC_idem (c : Nat) : upperC (upperC c) = upperC c := by
  simp only [upperC]
  split_ifs <;> omega

theorem lowerC_idem (c : Nat) : lowerC (lowerC c) = lowerC c := by
  simp only [lowerC]
  split_ifs <;> omega

theorem isSpaceC_of_alpha {c : Nat} (h : isAlphaC c = true) : isSpaceC c = false := by
  rw [isAlphaC, decide_eq_true_iff] at h
  rw [isSpaceC, decide_eq_false_iff_not]
  omega

theorem dropWhile_eq_self_of_false {p : Nat → Bool} {l : PyStr}
    (h : ∀ c ∈ l, p c = false) : l.dropWhile p = l := by
  cases l with
  | nil => rfl
  | cons a t =>
    rw [List.dropWhile_cons, h a (List.mem_cons_self _ _)]
    simp

/-- Stripping a string with no surrounding whitespace changes nothing. -/
theorem pyStrip_eq_self {l : PyStr} (h : ∀ c ∈ l, isSpaceC c = false) :
    pyStrip l = l := by
  rw [pyStrip, dropWhile_eq_self_of_false h,
    dropWhile_eq_self_of_false fun c hc => h c (List.mem_reverse.mp hc),
    List.reverse_reverse]

/-- On a nonempty all-alphabetic string, size normalization uppercases. -/
theorem normSize_alpha {s : PyStr} (hne : s ≠ [])
    (h : ∀ c ∈ s, isAlphaC c = true) : normSize s = pyUpper s := by
  have hsp : ∀ c ∈ s, isSpaceC c = false := fun c hc => isSpaceC_of_alpha (h c hc)
  have hie : s.isEmpty = false := by
    cases s with
    | nil => exact absurd rfl hne
    | cons a t => rfl
  show (if pyIsAlpha (pyStrip s) then pyUpper (pyStrip s) else pyStrip s) = pyUpper s
  rw [pyStrip_eq_self hsp, if_pos]
  rw [pyIsAlpha, hie, Bool.not_false, Bool.true_and, List.all_eq_true]
  exact h

/-- Claim C5: for a purely alphabetic size token the resolver cannot
tell its lowercase spelling from its uppercase spelling (the size is
canonicalized to uppercase before lookup); concretely, size "s" from
nike resolves to zara tshirt size "S". -/
theorem claim5_size_case_insensitive (c g fb tb s : PyStr)
    (h : ∀ ch ∈ s, isAlphaC ch = true) :
    get_mapped_size_by_category c g fb (pyLower s) tb =
      get_mapped_size_by_category c g fb (pyUpper s) tb ∧
    get_mapped_size_by_category (pys "tshirts") (pys "male") (pys "nike")
      (pys "s") (pys "zara") = some (pys "S") := by
  refine ⟨?_, by decide⟩
  cases hs : s with
  | nil => rfl
  | cons a t =>
    rw [← hs]
    have hne : s ≠ [] := by rw [hs]; exact List.cons_ne_nil a t
    have hlow : normSize (pyLower s) = pyUpper s := by
      rw [normSize_alpha]
      · rw [pyUpper, pyLower, List.map_map]
        exact List.map_congr_left fun x _ => upperC_lowerC x
      · rw [pyLower]
        exact fun he => hne (List.map_eq_nil_iff.mp he)
      · intro ch hch
        obtain ⟨x, hx, rfl⟩ := List.mem_map.mp hch
        rw [isAlphaC_lowerC]
        exact h x hx
    have hupp : normSize (pyUpper s) = pyUpper s := by
      rw [normSize_alpha]
      · rw [pyUpper, pyUpper, List.map_map]
        exact List.map_congr_left fun x _ => upperC_idem x
      · rw [pyUpper]
        exact fun he => hne (List.map_eq_nil_iff.mp he)
      · intro ch hch
        obtain ⟨x, hx, rfl⟩ := List.mem_map.mp hch
        rw [isAlphaC_upperC]
        exact h x hx
    rw [get_mapped_size_by_category, get_mapped_size_by_category, hlow, hupp]

/-- Witness for C5: applied to the alphabetic token "m". -/
theorem claim5_size_case_insensitive_witness :
    get_mapped_size_by_category (pys "tshirts") (pys "male") (pys "nike")
      (pyLower (pys "m")) (pys "adidas") =
    get_mapped_size_by_category (pys "tshirts") (pys "male") (pys "nike")
      (pyUpper (pys "m")) (pys "adidas") :=
  (claim5_size_case_insensitive (pys "tshirts") (pys "male") (pys "nike")
    (pys "adidas") (pys "m") (by decide)).1

/-- Claim C6: when the trimmed size token contains a non-alphabetic
character, normalization is exactly the trim — the token is passed
through unchanged to the lookup — so " 42 " resolves exactly like "42",
and no case change is applied to numeric tokens. -/
theorem claim6_numeric_size_passthrough (c g fb tb s : PyStr)
    (h : ∃ ch ∈ pyStrip s, isAlphaC ch = false) :
    normSize s = pyStrip s ∧
    get_mapped_size_by_category c g fb (pys " 42 ") tb =
      get_mapped_size_by_category c g fb (pys "42") tb ∧
    normSize (pys "42") = pys "42" := by
  refine ⟨?_, ?_, by decide⟩
  · have hall : (pyStrip s).all isAlphaC = false := by
      cases hall : (pyStrip s).all isAlphaC with
      | false => rfl
      | true =>
        obtain ⟨ch, hm, hf⟩ := h
        rw [List.all_eq_true] at hall
        rw [hall ch hm] at hf
        cases hf
    show (if pyIsAlpha (pyStrip s) then pyUpper (pyStrip s) else pyStrip s) = pyStrip s
    rw [pyIsAlpha, hall, Bool.and_false, if_neg (by simp)]
  · rw [get_mapped_size_by_category, get_mapped_size_by_category,
      show normSize (pys " 42 ") = normSize (pys "42") from by decide]

/-- Witness for C6: applied to " 42 ", whose trimmed form "42" has a
non-alphabetic character. -/
theorem claim6_numeric_size_passthrough_witness :
    normSize (pys " 42 ") = pyStrip (pys " 42 ") :=
  (claim6_numeric_size_passthrough (pys "pants") (pys "male") (pys "nike")
    (pys "adidas") (pys " 42 ") (by decide)).1

theorem pyLower_fixed {l : PyStr} (h : ∀ c ∈ l, lowerC c = c) : pyLower l = l := by
  rw [pyLower]
  have : l.map lowerC = l.map id := List.map_congr_left fun x hx => h x hx
  rw [this, List.map_id]

/-- Claim C7: the category argument is insensitive to case and hyphens —
pre-lowercasing and deleting hyphens does not change the result — so
"T-Shirts" resolves exactly like "tshirts". -/
theorem claim7_category_normalization (c g fb fs tb : PyStr) :
    get_mapped_size_by_category (removeDashes (pyLower c)) g fb fs tb =
      get_mapped_size_by_category c g fb fs tb ∧
    get_mapped_size_by_category (pys "T-Shirts") g fb fs tb =
      get_mapped_size_by_category (pys "tshirts") g fb fs tb := by
  constructor
  · have hlow : pyLower (removeDashes (pyLower c)) = removeDashes (pyLower c) := by
      refine pyLower_fixed fun x hx => ?_
      rw [removeDashes] at hx
      obtain ⟨a, _, rfl⟩ := List.mem_map.mp (List.mem_of_mem_filter hx)
      exact lowerC_idem a
    have hdash : removeDashes (removeDashes (pyLower c)) = removeDashes (pyLower c) := by
      rw [removeDashes, removeDashes]
      exact List.filter_eq_self.mpr fun a ha => (List.mem_filter.mp ha).2
    rw [get_mapped_size_by_category, get_mapped_size_by_category,
      normCat, normCat, hlow, hdash]
  · rw [get_mapped_size_by_category, get_mapped_size_by_category,
      show normCat (pys "T-Shirts") = normCat (pys "tshirts") from by decide]

/-- The four-level path `m[cat][gen][brand][size]`, yielding the target
dictionary when present. -/
def rawSizeEntry (m : CategoryMap) (c g b s : PyStr) : Option TargetMap :=
  (lookupStr m c).bind fun gm =>
    (lookupStr gm g).bind fun bm =>
      (lookupStr bm b).bind fun sm =>
        lookupStr sm s

/-- No target dictionary contains its own source brand as a key. -/
def noSelfEntries (m : CategoryMap) : Bool :=
  m.all fun p => p.2.all fun q => q.2.all fun r => r.2.all fun t =>
    lookupStr t.2 r.1 == none

theorem category_size_map_noSelf : noSelfEntries CATEGORY_SIZE_MAP = true := by decide

/-- Along any successful four-level path, every input string is a fixed
point of its level's normalization. -/
theorem path4_fixed {m : CategoryMap} {c g b s : PyStr} {tm : TargetMap}
    (hfix : catKeysFixed m = true) (h : rawSizeEntry m c g b s = some tm) :
    normCat c = c ∧ normGen g = g ∧ normBrand b = b ∧ normSize s = s := by
  rw [rawSizeEntry] at h
  rw [Option.bind_eq_some] at h
  obtain ⟨gm, hc, h⟩ := h
  rw [Option.bind_eq_some] at h
  obtain ⟨bm, hg, h⟩ := h
  rw [Option.bind_eq_some] at h
  obtain ⟨sm, hb, hs⟩ := h
  rw [catKeysFixed, List.all_eq_true] at hfix
  have h1 := hfix _ (lookupStr_mem hc)
  rw [Bool.and_eq_true, decide_eq_true_iff, List.all_eq_true] at h1
  have h2 := h1.2 _ (lookupStr_mem hg)
  rw [Bool.and_eq_true, decide_eq_true_iff, List.all_eq_true] at h2
  have h3 := h2.2 _ (lookupStr_mem hb)
  rw [Bool.and_eq_true, decide_eq_true_iff, List.all_eq_true] at h3
  have h4 := h3.2 _ (lookupStr_mem hs)
  rw [Bool.and_eq_true, decide_eq_true_iff] at h4
  exact ⟨h1.1, h2.1, h3.1, h4.1⟩

/-- Claim C4: for every key path present in the table, resolving with
`to_brand` equal to `from_brand` returns `none`: the table contains no
identity entries. -/
theorem claim4_no_identity_mapping (c g b s : PyStr) (tm : TargetMap)
    (h : rawSizeEntry CATEGORY_SIZE_MAP c g b s = some tm) :
    get_mapped_size_by_category c g b s b = none := by
  obtain ⟨h1, h2, h3, h4⟩ := path4_fixed category_size_map_keysFixed h
  rw [rawSizeEntry] at h
  rw [Option.bind_eq_some] at h
  obtain ⟨gm, hc, h⟩ := h
  rw [Option.bind_eq_some] at h
  obtain ⟨bm, hg, h⟩ := h
  rw [Option.bind_eq_some] at h
  obtain ⟨sm, hb, hs⟩ := h
  have hns := category_size_map_noSelf
  rw [noSelfEntries, List.all_eq_true] at hns
  have n1 := hns _ (lookupStr_mem hc)
  rw [List.all_eq_true] at n1
  have n2 := n1 _ (lookupStr_mem hg)
  rw [List.all_eq_true] at n2
  have n3 := n2 _ (lookupStr_mem hb)
  rw [List.all_eq_true] at n3
  have n4 := n3 _ (lookupStr_mem hs)
  rw [beq_iff_eq] at n4
  rw [get_mapped_size_by_category, h1, h2, h3, h4, rawLookupIn, hc,
    Option.some_bind, hg, Option.some_bind, hb, Option.some_bind, hs,
    Option.some_bind, n4]

/-- Witness for C4: jackets/male/nike/M is a stored path, and resolving
it from nike to nike returns `none`. -/
theorem claim4_no_identity_mapping_witness :
    rawSizeEntry CATEGORY_SIZE_MAP (pys "jackets") (pys "male") (pys "nike")
      (pys "M") = some [(pys "adidas", pys "46"), (pys "zara", pys "M")] ∧
    get_mapped_size_by_category (pys "jackets") (pys "male") (pys "nike")
      (pys "M") (pys "nike") = none :=
  ⟨by decide,
   claim4_no_identity_mapping (pys "jackets") (pys "male") (pys "nike")
     (pys "M") [(pys "adidas", pys "46"), (pys "zara", pys "M")] (by decide)⟩

/-- Every entry of the table has an exact reverse entry in the same
category and gender: `m[c][g][B][t][A] = s` whenever `m[c][g][A][s][B] = t`. -/
def roundtripHolds (m : CategoryMap) : Bool :=
  m.all fun p => p.2.all fun q => q.2.all fun r => r.2.all fun t => t.2.all fun u =>
    ((lookupStr q.2 u.1).bind fun sm2 =>
      (lookupStr sm2 u.2).bind fun tm2 => lookupStr tm2 r.1) == some t.1

theorem category_size_map_roundtripHolds : roundtripHolds CATEGORY_SIZE_MAP = true := by
  decide

/-- Any successful raw lookup reverses exactly within the table. -/
theorem raw_roundtrip {m : CategoryMap} (hrt : roundtripHolds m = true)
    {c g A s B t : PyStr} (h : rawLookupIn m c g A s B = some t) :
    rawLookupIn m c g B t A = some s := by
  rw [rawLookupIn] at h
  rw [Option.bind_eq_some] at h
  obtain ⟨gm, hc, h⟩ := h
  rw [Option.bind_eq_some] at h
  obtain ⟨bm, hg, h⟩ := h
  rw [Option.bind_eq_some] at h
  obtain ⟨sm, hb, h⟩ := h
  rw [Option.bind_eq_some] at h
  obtain ⟨tm, hs, ht⟩ := h
  rw [roundtripHolds, List.all_eq_true] at hrt
  have r1 := hrt _ (lookupStr_mem hc)
  rw [List.all_eq_true] at r1
  have r2 := r1 _ (lookupStr_mem hg)
  rw [List.all_eq_true] at r2
  have r3 := r2 _ (lookupStr_mem hb)
  rw [List.all_eq_true] at r3
  have r4 := r3 _ (lookupStr_mem hs)
  rw [List.all_eq_true] at r4
  have r5 := r4 _ (lookupStr_mem ht)
  rw [beq_iff_eq] at r5
  rw [rawLookupIn, hc, Option.some_bind, hg, Option.some_bind]
  exact r5

/-- Claim C9: the table is round-trip symmetric — a stored mapping from
brand A size s to brand B size t is always matched by the stored reverse
mapping from B size t back to A size s, and the resolver follows it. -/
theorem claim9_roundtrip_symmetry (c g A B s t : PyStr) (_hAB : A ≠ B)
    (h : rawLookupIn CATEGORY_SIZE_MAP c g A s B = some t) :
    rawLookupIn CATEGORY_SIZE_MAP c g B t A = some s ∧
    get_mapped_size_by_category c g B t A = some s := by
  have hrev := raw_roundtrip category_size_map_roundtripHolds h
  refine ⟨hrev, ?_⟩
  obtain ⟨h1, h2, h3, h4, h5, h6⟩ := path_fixed category_size_map_keysFixed h
  rw [get_mapped_size_by_category, h1, h2, h5, h6, h3]
  exact hrev

/-- Witness for C9: jackets/male maps zara L to adidas 48, and the
reverse entry maps adidas 48 back to zara L. -/
theorem claim9_roundtrip_symmetry_witness :
    pys "zara" ≠ pys "adidas" ∧
    rawLookupIn CATEGORY_SIZE_MAP (pys "jackets") (pys "male") (pys "zara")
      (pys "L") (pys "adidas") = some (pys "48") ∧
    rawLookupIn CATEGORY_SIZE_MAP (pys "jackets") (pys "male") (pys "adidas")
      (pys "48") (pys "zara") = some (pys "L") ∧
    get_mapped_size_by_category (pys "jackets") (pys "male") (pys "adidas")
      (pys "48") (pys "zara") = some (pys "L") := by
  refine ⟨by decide, by decide, ?_, ?_⟩
  · exact (claim9_roundtrip_symmetry (pys "jackets") (pys "male") (pys "zara")
      (pys "adidas") (pys "L") (pys "48") (by decide) (by decide)).1
  · exact (claim9_roundtrip_symmetry (pys "jackets") (pys "male") (pys "zara")
      (pys "adidas") (pys "L") (pys "48") (by decide) (by decide)).2

/-- A successful resolution always reverses: the reverse resolution
succeeds and returns the normalization of the original size token. -/
theorem resolve_roundtrip {c g A s B t : PyStr}
    (h : get_mapped_size_by_category c g A s B = some t) :
    get_mapped_size_by_category c g B t A = some (normSize s) := by
  rw [get_mapped_size_by_category] at h
  have hrev := raw_roundtrip category_size_map_roundtripHolds h
  have hfix := path_fixed category_size_map_keysFixed h
  rw [get_mapped_size_by_category, hfix.2.2.2.2.2]
  exact hrev

/-- Counterexample to C3: no category, gender, distinct brands A and B
and size exhibit an A-to-B resolution whose B-to-A reverse resolution
fails — the source data is in fact symmetric. -/
theorem claim3_asymmetry_counterexample :
    ¬ ∃ c g A B s t : PyStr, A ≠ B ∧
      get_mapped_size_by_category c g A s B = some t ∧
      get_mapped_size_by_category c g B t A = none := by
  rintro ⟨c, g, A, B, s, t, _, hf, hr⟩
  rw [resolve_roundtrip hf] at hr
  exact Option.noConfusion hr

/-- Claim C3 (amended): whenever resolving size s from brand A to brand
B succeeds with t, resolving t from B back to A also succeeds — it
returns the normalization of s — so no asymmetric pair exists. -/
theorem claim3_symmetry_amended (c g A B s t : PyStr) (_hAB : A ≠ B)
    (h : get_mapped_size_by_category c g A s B = some t) :
    get_mapped_size_by_category c g B t A = some (normSize s) :=
  resolve_roundtrip h

/-- Witness for C3 (amended): tshirts/female nike M resolves to adidas
"38", and the reverse resolution returns "M". -/
theorem claim3_symmetry_amended_witness :
    pys "nike" ≠ pys "adidas" ∧
    get_mapped_size_by_category (pys "tshirts") (pys "female") (pys "adidas")
      (pys "38") (pys "nike") = some (normSize (pys "M")) :=
  ⟨by decide,
   claim3_symmetry_amended (pys "tshirts") (pys "female") (pys "nike")
     (pys "adidas") (pys "M") (pys "38") (by decide) (by decide)⟩

/-- The size keys of the male shoes nike branch. -/
def shoes_male_nike_sizes : List PyStr := [pys "8", pys "9", pys "10"]

/-- Claim C8: the male/shoes/nike branch holds exactly the sizes "8",
"9", "10", and any size token normalizing outside them — no range
interpolation — resolves to `none`. -/
theorem claim8_exact_size_match_only (fs : PyStr)
    (h : normSize fs ∉ shoes_male_nike_sizes) :
    shoes_male_nike.map Prod.fst = shoes_male_nike_sizes ∧
    get_mapped_size_by_category (pys "shoes") (pys "male") (pys "nike") fs
      (pys "adidas") = none := by
  refine ⟨by decide, ?_⟩
  have hkeys : ∀ p ∈ shoes_male_nike, p.1 ∈ shoes_male_nike_sizes := by decide
  have hnone : lookupStr shoes_male_nike (normSize fs) = none :=
    lookupStr_eq_none fun p hp he => h (he ▸ hkeys p hp)
  rw [get_mapped_size_by_category,
    show normCat (pys "shoes") = pys "shoes" from by decide,
    show normGen (pys "male") = pys "male" from by decide,
    show normBrand (pys "nike") = pys "nike" from by decide,
    rawLookupIn,
    show lookupStr CATEGORY_SIZE_MAP (pys "shoes") =
      some [(pys "male", shoes_male), (pys "female", shoes_female)] from rfl,
    Option.some_bind,
    show lookupStr [(pys "male", shoes_male), (pys "female", shoes_female)]
      (pys "male") = some shoes_male from rfl,
    Option.some_bind,
    show lookupStr shoes_male (pys "nike") = some shoes_male_nike from rfl,
    Option.some_bind, hnone, Option.none_bind]

/-- Witness for C8: size "11" is outside the branch and resolves to
`none`. -/
theorem claim8_exact_size_match_only_witness :
    normSize (pys "11") ∉ shoes_male_nike_sizes ∧
    get_mapped_size_by_category (pys "shoes") (pys "male") (pys "nike")
      (pys "11") (pys "adidas") = none :=
  ⟨by decide, (claim8_exact_size_match_only (pys "11") (by decide)).2⟩

/-- Python exceptions relevant to the `/get-supported-sizes` handler. -/
inductive PyExc
  | keyError
  | attributeError
deriving DecidableEq

/-- An HTTP response, reduced to its status code. -/
structure HttpResponse where
  status : Nat
deriving DecidableEq

/-- The names bound at top level of module `mapping` (`mapping.py`):
two dictionaries and two functions, and nothing else. -/
def mappingModuleNames : List String :=
  ["LEGACY_SIZE_MAP", "get_mapped_size", "CATEGORY_SIZE_MAP",
   "get_mapped_size_by_category"]

/-- Python attribute access `mp.name`: `AttributeError` when the module
does not bind `name`. -/
def moduleGetattr (name : String) : Except PyExc Unit :=
  if name ∈ mappingModuleNames then Except.ok ()
  else Except.error PyExc.attributeError

/-- The `/get-supported-sizes` handler (`app.py` lines 133-154): the try
block resolves `mp.get_supported_sizes` and then calls it — `call`
stands for whatever that call would return — and the except clause turns
a `KeyError`, and only a `KeyError`, into a 400 response; every other
exception propagates out of the handler. -/
def get_supported_sizes_endpoint
    (call : String → String → String → Except PyExc HttpResponse)
    (category gender brand : String) : Except PyExc HttpResponse :=
  let body := (moduleGetattr "get_supported_sizes").bind fun _ =>
    call category gender brand
  match body with
  | Except.error PyExc.keyError => Except.ok ⟨400⟩
  | r => r

/-- Claim C10: for every input the `/get-supported-sizes` handler
faults: `mapping` defines no `get_supported_sizes`, so the attribute
access raises `AttributeError`, which the `except KeyError` clause never
converts into the intended 400 response — whatever the missing function
would have computed. -/
theorem claim10_endpoint_always_faults
    (call : String → String → String → Except PyExc HttpResponse)
    (category gender brand : String) :
    get_supported_sizes_endpoint call category gender brand =
      Except.error PyExc.attributeError := rfl

end VTryon
